import Mathlib

/-!
Verification of the product-microservice specification against a shallow
embedding of the Go sources.

Conventions used throughout:
  * Go strings are Lean `String`s except in the authentication layer, where
    byte-level content matters (base64), so there Go strings are `List Nat`
    of byte values.
  * Go `float64` is embedded as `Rat`: the code only stores these values and
    compares them with `0`, never performs float arithmetic, so exact
    rationals are adequate.
  * Go `int64` / `int` are embedded as `Int`.
  * `uuid.UUID` is an opaque identifier; it is embedded as `Nat`.
  * Fallible Go functions return `Except` / `Option`; functions that call the
    storage collaborator are embedded as explicit state passing over a store
    state, or take the storage operations as function parameters.
-/

namespace PM

/-! ## Sanitizer (internal/validation/validator.go) -/

/-- Go `unicode.IsSpace`: the Unicode White_Space property, which is exactly
the code points 0x09-0x0D, 0x20, 0x85, 0xA0, 0x1680, 0x2000-0x200A, 0x2028,
0x2029, 0x202F, 0x205F, 0x3000.  `strings.TrimSpace` trims by this
predicate. -/
def goIsSpace (c : Char) : Bool :=
  let n := c.toNat
  (9 ≤ n && n ≤ 13) || n = 32 || n = 133 || n = 160 || n = 0x1680 ||
  (0x2000 ≤ n && n ≤ 0x200A) || n = 0x2028 || n = 0x2029 || n = 0x202F ||
  n = 0x205F || n = 0x3000

/-- Trim the leading run of whitespace, as a list operation. -/
def dropSpaceLeft (l : List Char) : List Char :=
  l.dropWhile goIsSpace

/-- Trim the trailing run of whitespace, as a list operation. -/
def dropSpaceRight (l : List Char) : List Char :=
  (l.reverse.dropWhile goIsSpace).reverse

/-- Go `strings.TrimSpace`, on the character list of the string. -/
def goTrimSpaceL (l : List Char) : List Char :=
  dropSpaceRight (dropSpaceLeft l)

/-- Go `strings.TrimSpace`. -/
def goTrimSpace (s : String) : String :=
  ⟨goTrimSpaceL s.data⟩

/-- The five characters `html.EscapeString` escapes: `<`, `>`, `&`,
the apostrophe (39) and the double quote (34). -/
def isEscapedChar (c : Char) : Bool :=
  c.toNat = 38 || c.toNat = 39 || c.toNat = 60 || c.toNat = 62 || c.toNat = 34

/-- Go `html.EscapeString` on one character: `&` becomes `&amp;`, the
apostrophe becomes `&#39;`, `<` becomes `&lt;`, `>` becomes `&gt;`, the double
quote becomes `&#34;`; every other character is unchanged. -/
def escapeChar (c : Char) : List Char :=
  if c.toNat = 38 then "&amp;".data
  else if c.toNat = 39 then "&#39;".data
  else if c.toNat = 60 then "&lt;".data
  else if c.toNat = 62 then "&gt;".data
  else if c.toNat = 34 then "&#34;".data
  else [c]

/-- Go `html.EscapeString`, on the character list. -/
def escapeHTMLL (l : List Char) : List Char :=
  l.foldr (fun c acc => escapeChar c ++ acc) []

/-- `validation.SanitizeString`: trim whitespace, then HTML-escape. -/
def SanitizeString (s : String) : String :=
  ⟨escapeHTMLL (goTrimSpaceL s.data)⟩

/-- Boolean list-prefix test (Go `strings.HasPrefix`). -/
def isPfxList {α : Type} [DecidableEq α] : List α → List α → Bool
  | [], _ => true
  | _ :: _, [] => false
  | p :: ps, c :: cs => p = c && isPfxList ps cs

/-- `validation.SanitizeURL`: trim whitespace; return the trimmed string
only if it starts with `http://` or `https://`, else return the empty
string. -/
def SanitizeURL (s : String) : String :=
  let t := goTrimSpaceL s.data
  if isPfxList "http://".data t || isPfxList "https://".data t then ⟨t⟩ else ""

example : SanitizeString "  hello world  " = "hello world" := by decide
example : SanitizeString "<div>" = "&lt;div&gt;" := by decide
example : SanitizeURL "  https://a.com  " = "https://a.com" := by decide
example : SanitizeURL "ftp://x" = "" := by decide
example : SanitizeURL "x" = "" := by decide

/-! ## Authenticator (internal/auth/auth.go)

Go strings here are byte strings, embedded as `List Nat` of byte values
(`GoStr`), because the base64 codec works on bytes. -/

/-- A Go string viewed as its byte values. -/
abbrev GoStr := List Nat

/-- Byte string of an ASCII Lean string literal. -/
def bstr (s : String) : GoStr := s.data.map Char.toNat

/-- The base64 standard-alphabet character (as a byte) of a 6-bit value. -/
def b64Char (n : Nat) : Nat :=
  if n < 26 then 65 + n
  else if n < 52 then 97 + (n - 26)
  else if n < 62 then 48 + (n - 52)
  else if n = 62 then 43
  else 47

/-- Inverse of the base64 standard alphabet: the 6-bit value of a byte, or
`none` for bytes outside the alphabet (including the padding byte 61). -/
def b64Index (c : Nat) : Option Nat :=
  if 65 ≤ c && c ≤ 90 then some (c - 65)
  else if 97 ≤ c && c ≤ 122 then some (26 + (c - 97))
  else if 48 ≤ c && c ≤ 57 then some (52 + (c - 48))
  else if c = 43 then some 62
  else if c = 47 then some 63
  else none

/-- Go `base64.StdEncoding.EncodeToString`: groups of three bytes become four
alphabet bytes; a final group of one or two bytes is padded with `=` (61). -/
def base64Encode : List Nat → List Nat
  | [] => []
  | [b1] => [b64Char (b1 / 4), b64Char (b1 % 4 * 16), 61, 61]
  | [b1, b2] =>
    [b64Char (b1 / 4), b64Char (b1 % 4 * 16 + b2 / 16), b64Char (b2 % 16 * 4), 61]
  | b1 :: b2 :: b3 :: rest =>
    b64Char (b1 / 4) :: b64Char (b1 % 4 * 16 + b2 / 16) ::
    b64Char (b2 % 16 * 4 + b3 / 64) :: b64Char (b3 % 64) :: base64Encode rest

/-- Decoding of newline-free input in chunks of four bytes, mirroring Go
`base64.StdEncoding.Decode`: padding (`=`, byte 61) may appear only in the
last chunk, as `xx==` (one byte) or `xxx=` (two bytes); any byte outside the
alphabet, a chunk after padding, or a length not a multiple of four is a
`CorruptInputError`, embedded as `none`.  Like Go's non-strict decoder, unused
trailing bits of a padded chunk are ignored, not checked. -/
def base64DecodeChunks : List Nat → Option (List Nat)
  | [] => some []
  | c1 :: c2 :: c3 :: c4 :: rest =>
    match b64Index c1, b64Index c2 with
    | some n1, some n2 =>
      if c3 = 61 then
        if c4 = 61 ∧ rest = [] then some [n1 * 4 + n2 / 16] else none
      else
        match b64Index c3 with
        | some n3 =>
          if c4 = 61 then
            if rest = [] then some [n1 * 4 + n2 / 16, n2 % 16 * 16 + n3 / 4]
            else none
          else
            match b64Index c4 with
            | some n4 =>
              match base64DecodeChunks rest with
              | some bs =>
                some ((n1 * 4 + n2 / 16) :: (n2 % 16 * 16 + n3 / 4) ::
                      (n3 % 4 * 64 + n4) :: bs)
              | none => none
            | none => none
        | none => none
    | _, _ => none
  | _ => none

/-- Go `base64.StdEncoding.DecodeString`: the decoder ignores carriage
returns (13) and newlines (10), then decodes in chunks of four. -/
def base64Decode (s : List Nat) : Option (List Nat) :=
  base64DecodeChunks (s.filter (fun c => c ≠ 13 && c ≠ 10))

/-- Go map lookup on a username-to-password association list (the
`Authenticator.users` map; Go map keys are unique). -/
def mapLookup : List (GoStr × GoStr) → GoStr → Option GoStr
  | [], _ => none
  | (k, v) :: rest, u => if k = u then some v else mapLookup rest u

/-- `Authenticator.ValidateCredentials`: exact match against the stored
mapping; an unknown username fails closed. -/
def ValidateCredentials (users : List (GoStr × GoStr)) (username password : GoStr) : Bool :=
  match mapLookup users username with
  | some stored => stored = password
  | none => false

/-- Go `strings.SplitN(s, ":", 2)` restricted to its use in `authenticate`:
`some (before, after)` splits at the first colon (byte 58); `none` when the
string has no colon (SplitN then returns a single part, which the code
rejects). -/
def splitFirstColon : GoStr → Option (GoStr × GoStr)
  | [] => none
  | c :: rest =>
    if c = 58 then some ([], rest)
    else
      match splitFirstColon rest with
      | some (a, b) => some (c :: a, b)
      | none => none

/-- The gRPC call metadata: an association of keys to lists of values.
`authenticate` reads only the `authorization` key. -/
structure Metadata where
  pairs : List (GoStr × List GoStr)
deriving DecidableEq

/-- `metadata.MD.Get`: all values stored under a key (empty when absent). -/
def Metadata.get (md : Metadata) (k : GoStr) : List GoStr :=
  match mdLookup md.pairs k with
  | some vs => vs
  | none => []
where mdLookup : List (GoStr × List GoStr) → GoStr → Option (List GoStr)
  | [], _ => none
  | (k', v) :: rest, k => if k' = k then some v else mdLookup rest k

/-- The errors `Authenticator.authenticate` can return.  Every one of them is
a gRPC status with code `Unauthenticated` (16); the constructor records which
message the status carries. -/
inductive AuthErr
  | missingMetadata
  | missingAuthHeader
  | invalidHeaderFormat
  | invalidBase64
  | invalidCredsFormat
  | invalidUserPass
deriving DecidableEq

/-- The message text of each `authenticate` error, as in the source. -/
def AuthErr.msg : AuthErr → String
  | .missingMetadata => "missing metadata"
  | .missingAuthHeader => "missing authorization header"
  | .invalidHeaderFormat => "invalid authorization header format"
  | .invalidBase64 => "invalid base64 encoding"
  | .invalidCredsFormat => "invalid credentials format"
  | .invalidUserPass => "invalid username or password"

/-- Go `strings.TrimPrefix` on byte strings. -/
def trimPfx (pfx s : GoStr) : GoStr :=
  if isPfxList pfx s then s.drop pfx.length else s

/-- `Authenticator.authenticate`: extract and validate credentials from the
call metadata.  `none` is success; `some e` is the gRPC `Unauthenticated`
error `e`.  The incoming context carries `some md` when
`metadata.FromIncomingContext` succeeds and `none` when it fails. -/
def authenticate (users : List (GoStr × GoStr)) (ctx : Option Metadata) : Option AuthErr :=
  match ctx with
  | none => some .missingMetadata
  | some md =>
    match md.get (bstr "authorization") with
    | [] => some .missingAuthHeader
    | authHeader :: _ =>
      if isPfxList (bstr "Basic ") authHeader then
        match base64Decode (trimPfx (bstr "Basic ") authHeader) with
        | none => some .invalidBase64
        | some creds =>
          match splitFirstColon creds with
          | none => some .invalidCredsFormat
          | some (username, password) =>
            if ValidateCredentials users username password then none
            else some .invalidUserPass
      else some .invalidHeaderFormat

/-- Boolean list-suffix test (Go `strings.HasSuffix`). -/
def isSfxList {α : Type} [DecidableEq α] (sfx l : List α) : Bool :=
  isPfxList sfx.reverse l.reverse

/-- `Authenticator.UnaryInterceptor`: calls whose full method name ends in
`/Health` skip authentication; otherwise the handler runs only when
`authenticate` succeeds.  The handler is abstracted as the value `h` it
returns; `.ok h` means the handler ran, `.error e` means the call was
rejected before any business logic. -/
def UnaryInterceptor {α : Type} (users : List (GoStr × GoStr))
    (fullMethod : GoStr) (ctx : Option Metadata) (h : α) : Except AuthErr α :=
  if isSfxList (bstr "/Health") fullMethod then .ok h
  else
    match authenticate users ctx with
    | some e => .error e
    | none => .ok h

/-- `Authenticator.StreamInterceptor`: every stream call is authenticated;
the source has no method-name bypass here. -/
def StreamInterceptor {α : Type} (users : List (GoStr × GoStr))
    (_fullMethod : GoStr) (ctx : Option Metadata) (h : α) : Except AuthErr α :=
  match authenticate users ctx with
  | some e => .error e
  | none => .ok h

/-- The predefined users of `NewAuthenticator`. -/
def defaultUsers : List (GoStr × GoStr) :=
  [(bstr "admin", bstr "password123"),
   (bstr "client", bstr "client456"),
   (bstr "test", bstr "test789")]

example : base64Decode (base64Encode (bstr "admin:password123")) =
    some (bstr "admin:password123") := by decide
example :
    authenticate defaultUsers
      (some ⟨[(bstr "authorization",
               [bstr "Basic " ++ base64Encode (bstr "admin:password123")])]⟩) =
    none := by decide
example :
    authenticate defaultUsers
      (some ⟨[(bstr "authorization",
               [bstr "Basic " ++ base64Encode (bstr "admin:password124")])]⟩) =
    some .invalidUserPass := by decide

/-! ## Product domain (internal/service/product)

Go strings in the domain and handler layers are Lean `String`s; `float64` is
`Rat`; `int64`/`int` is `Int`; `uuid.UUID` is an opaque identifier (`Nat`).
Timestamps are maintained by database defaults/triggers and are omitted. -/

/-- An opaque entity identifier (`uuid.UUID`). -/
abbrev UUID := Nat

/-- `product.DigitalProductInfo`. -/
structure DigitalProductInfo where
  FileSize : Int
  DownloadLink : String
deriving DecidableEq

/-- `product.PhysicalProductInfo`. -/
structure PhysicalProductInfo where
  Weight : Rat
  Dimensions : String
deriving DecidableEq

/-- `product.SubscriptionProductInfo`. -/
structure SubscriptionProductInfo where
  SubscriptionPeriod : String
  RenewalPrice : Rat
deriving DecidableEq

/-- `product.ProductType` is a Go string type (arbitrary strings inhabit it;
only three are valid). -/
abbrev ProductType := String

/-- `product.DigitalProduct`. -/
def DigitalProduct : ProductType := "digital"

/-- `product.PhysicalProduct`. -/
def PhysicalProduct : ProductType := "physical"

/-- `product.SubscriptionProduct`. -/
def SubscriptionProduct : ProductType := "subscription"

/-- `ProductType.IsValid`. -/
def productTypeIsValid (pt : ProductType) : Bool :=
  pt = DigitalProduct || pt = PhysicalProduct || pt = SubscriptionProduct

/-- `product.Product` (the `Type` field is named `Typ`, `Type` being reserved
in Lean; `CreatedAt`/`UpdatedAt` omitted as database-maintained). -/
structure Product where
  ID : UUID
  Name : String
  Description : String
  Price : Rat
  Typ : ProductType
  DigitalProductInfo : Option DigitalProductInfo
  PhysicalProductInfo : Option PhysicalProductInfo
  SubscriptionProductInfo : Option SubscriptionProductInfo
deriving DecidableEq

/-- `product.CreateProductRequest`. -/
structure CreateProductRequest where
  Name : String
  Description : String
  Price : Rat
  Typ : ProductType
  DigitalProduct : Option DigitalProductInfo
  PhysicalProduct : Option PhysicalProductInfo
  SubscriptionProduct : Option SubscriptionProductInfo
deriving DecidableEq

/-- `product.UpdateProductRequest` (`Name`/`Description` are plain Go strings
whose zero value `""` means absent; `Price` is a pointer, `none` meaning
absent). -/
structure UpdateProductRequest where
  Name : String
  Description : String
  Price : Option Rat
  DigitalProduct : Option DigitalProductInfo
  PhysicalProduct : Option PhysicalProductInfo
  SubscriptionProduct : Option SubscriptionProductInfo
deriving DecidableEq

/-- The typed service errors (`service.BadRequest` / `service.NotFound`),
each carrying its message. -/
inductive SvcErr
  | badRequest (msg : String)
  | notFound (msg : String)
deriving DecidableEq

/-- `ProductService.validateTypeSpecificFields`: `none` is success, `some`
carries the error message the service wraps in `BadRequest`.  The Go `switch`
on the three type constants is an if-chain here; an unknown type falls
through to success, exactly as a Go `switch` with no `default`. -/
def validateTypeSpecificFields (productType : ProductType)
    (digital : Option DigitalProductInfo) (physical : Option PhysicalProductInfo)
    (subscription : Option SubscriptionProductInfo) : Option String :=
  if productType = DigitalProduct then
    match digital with
    | none => some "digital product information is required for digital products"
    | some d =>
      if d.FileSize ≤ 0 then some "file size must be greater than 0 for digital products"
      else if d.DownloadLink = "" then some "download link is required for digital products"
      else none
  else if productType = PhysicalProduct then
    match physical with
    | none => some "physical product information is required for physical products"
    | some ph =>
      if ph.Weight ≤ 0 then some "weight must be greater than 0 for physical products"
      else if ph.Dimensions = "" then some "dimensions are required for physical products"
      else none
  else if productType = SubscriptionProduct then
    match subscription with
    | none => some "subscription product information is required for subscription products"
    | some sb =>
      if sb.SubscriptionPeriod = "" then some "subscription period is required for subscription products"
      else if sb.RenewalPrice ≤ 0 then some "renewal price must be greater than 0 for subscription products"
      else none
  else none

/-- The product storage collaborator's state: the stored rows, plus the
identifier the database generates for the next insert (the `products` table
has `id UUID PRIMARY KEY DEFAULT uuid_generate_v4()`; the ORM writes the
returned id back into the entity). -/
structure ProductStoreState where
  rows : List Product
  freshID : UUID
deriving DecidableEq

/-- `store.GetByID` on the embedded store: first row with the identifier. -/
def getByID (rows : List Product) (id : UUID) : Option Product :=
  rows.find? (fun p => decide (p.ID = id))

/-- The entity `ProductService.CreateProduct` constructs (lines 135-150):
the request's scalar fields, and — via the `switch` on the declared type —
only the variant payload matching that type, the other two left unset.  The
identifier is the one the database generates on insert. -/
def productFromRequest (idv : UUID) (req : CreateProductRequest) : Product :=
  { ID := idv
    Name := req.Name
    Description := req.Description
    Price := req.Price
    Typ := req.Typ
    DigitalProductInfo :=
      if req.Typ = DigitalProduct then req.DigitalProduct else none
    PhysicalProductInfo :=
      if req.Typ = PhysicalProduct then req.PhysicalProduct else none
    SubscriptionProductInfo :=
      if req.Typ = SubscriptionProduct then req.SubscriptionProduct else none }

/-- `ProductService.CreateProduct`: validate the type, validate the
type-specific fields, construct the entity with only the variant matching
the declared type, persist, return the stored entity (with the
database-generated identifier).  The pair's second component is the store
state after the call; on error it is unchanged — nothing was persisted. -/
def CreateProduct (st : ProductStoreState) (req : CreateProductRequest) :
    Except SvcErr Product × ProductStoreState :=
  if ¬ productTypeIsValid req.Typ then
    (.error (.badRequest "invalid product type"), st)
  else
    match validateTypeSpecificFields req.Typ req.DigitalProduct
        req.PhysicalProduct req.SubscriptionProduct with
    | some msg => (.error (.badRequest msg), st)
    | none =>
      let product : Product := productFromRequest st.freshID req
      (.ok product, { st with rows := st.rows ++ [product] })

/-- A value in the `map[string]interface{}` updates map: the code stores
strings, `int64`s and `float64`s. -/
inductive UpdVal
  | s (v : String)
  | i (v : Int)
  | q (v : Rat)
deriving DecidableEq

/-- The updates map `ProductService.UpdateProduct` builds (lines 184-224):
scalar fields present in the request, then the variant sub-fields of the
*existing* entity's type that are individually present.  The Go map is
unordered with unique keys; it is embedded as the association list in
insertion order. -/
def buildProductUpdates (existingType : ProductType) (req : UpdateProductRequest) :
    List (String × UpdVal) :=
  (if req.Name ≠ "" then [("name", UpdVal.s req.Name)] else []) ++
  (if req.Description ≠ "" then [("description", UpdVal.s req.Description)] else []) ++
  (match req.Price with
   | some pr => [("price", UpdVal.q pr)]
   | none => []) ++
  (if existingType = DigitalProduct then
    match req.DigitalProduct with
    | some d =>
      (if d.FileSize > 0 then [("digital_file_size", UpdVal.i d.FileSize)] else []) ++
      (if d.DownloadLink ≠ "" then [("digital_download_link", UpdVal.s d.DownloadLink)] else [])
    | none => []
  else if existingType = PhysicalProduct then
    match req.PhysicalProduct with
    | some ph =>
      (if ph.Weight > 0 then [("physical_weight", UpdVal.q ph.Weight)] else []) ++
      (if ph.Dimensions ≠ "" then [("physical_dimensions", UpdVal.s ph.Dimensions)] else [])
    | none => []
  else if existingType = SubscriptionProduct then
    match req.SubscriptionProduct with
    | some sb =>
      (if sb.SubscriptionPeriod ≠ "" then [("subscription_period", UpdVal.s sb.SubscriptionPeriod)] else []) ++
      (if sb.RenewalPrice > 0 then [("subscription_renewal_price", UpdVal.q sb.RenewalPrice)] else [])
    | none => []
  else [])

/-- `ProductService.UpdateProduct`: fetch the entity, build the updates map
keyed off the existing entity's type, reject an empty map, else hand the map
to `store.Update`.  `.ok m` means `store.Update(id, m)` is invoked with
exactly the map `m`; `.error` means `store.Update` is never invoked (the
column application and refetch are the ORM collaborator's work). -/
def UpdateProduct (rows : List Product) (id : UUID) (req : UpdateProductRequest) :
    Except SvcErr (List (String × UpdVal)) :=
  match getByID rows id with
  | none => .error (.notFound "product not found")
  | some existingProduct =>
    let updates := buildProductUpdates existingProduct.Typ req
    if updates = [] then .error (.badRequest "no fields to update")
    else .ok updates

/-- `ProductService.ListProducts`: default the pagination, then issue the
page query (`store.GetAll` with limit and offset) and the separate count
query (`store.Count`), both taken as function parameters standing for the
storage collaborator. -/
def ListProducts (getAll : Option ProductType → Int → Int → List Product)
    (count : Option ProductType → Int)
    (typeFilter : Option ProductType) (page pageSize : Int) :
    List Product × Int :=
  let page := if page ≤ 0 then 1 else page
  let pageSize := if pageSize ≤ 0 then 10 else pageSize
  let offset := (page - 1) * pageSize
  (getAll typeFilter pageSize offset, count typeFilter)

/-! ## Subscription domain (internal/service/subscription) -/

/-- `subscription.SubscriptionPlan` (timestamps omitted as
database-maintained). -/
structure SubscriptionPlan where
  ID : UUID
  ProductID : UUID
  PlanName : String
  Duration : Int
  Price : Rat
deriving DecidableEq

/-- `subscription.CreateSubscriptionPlanRequest` (`ProductID` is a string at
the domain boundary, parsed by the service). -/
structure CreateSubscriptionPlanRequest where
  ProductID : String
  PlanName : String
  Duration : Int
  Price : Rat
deriving DecidableEq

/-- `subscription.UpdateSubscriptionPlanRequest`. -/
structure UpdateSubscriptionPlanRequest where
  PlanName : String
  Duration : Option Int
  Price : Option Rat
deriving DecidableEq

/-- The subscription-plan storage collaborator's state; `freshID` is the
identifier `uuid.New()` yields for the next creation. -/
structure PlanStoreState where
  rows : List SubscriptionPlan
  freshID : UUID
deriving DecidableEq

/-- `store.GetByID` for plans. -/
def planGetByID (rows : List SubscriptionPlan) (id : UUID) : Option SubscriptionPlan :=
  rows.find? (fun pl => decide (pl.ID = id))

/-- `SubscriptionService.CreateSubscriptionPlan`: parse the owning product
identifier (`uuid.Parse` is the external uuid library, taken as the function
parameter `parseUUID`), construct the plan with a fresh identifier and the
four scalar fields exactly as given — no range or presence checks — persist,
return it.  On error the store state is unchanged. -/
def CreateSubscriptionPlan (parseUUID : String → Option UUID)
    (st : PlanStoreState) (req : CreateSubscriptionPlanRequest) :
    Except SvcErr SubscriptionPlan × PlanStoreState :=
  match parseUUID req.ProductID with
  | none => (.error (.badRequest "invalid product ID format"), st)
  | some productID =>
    let plan : SubscriptionPlan :=
      { ID := st.freshID
        ProductID := productID
        PlanName := req.PlanName
        Duration := req.Duration
        Price := req.Price }
    (.ok plan, { st with rows := st.rows ++ [plan] })

/-- The updates map `SubscriptionService.UpdateSubscriptionPlan` builds
(lines 170-179). -/
def buildPlanUpdates (req : UpdateSubscriptionPlanRequest) : List (String × UpdVal) :=
  (if req.PlanName ≠ "" then [("plan_name", UpdVal.s req.PlanName)] else []) ++
  (match req.Duration with
   | some d => [("duration", UpdVal.i d)]
   | none => []) ++
  (match req.Price with
   | some pr => [("price", UpdVal.q pr)]
   | none => [])

/-- `SubscriptionService.UpdateSubscriptionPlan`: fetch, build the updates
map, reject an empty map, else hand the map to `store.Update` (same reading
of `.ok`/`.error` as for products). -/
def UpdateSubscriptionPlan (rows : List SubscriptionPlan) (id : UUID)
    (req : UpdateSubscriptionPlanRequest) : Except SvcErr (List (String × UpdVal)) :=
  match planGetByID rows id with
  | none => .error (.notFound "subscription plan not found")
  | some _ =>
    let updates := buildPlanUpdates req
    if updates = [] then .error (.badRequest "no fields to update")
    else .ok updates

/-! ## Request handlers (internal/grpc/handlers) -/

/-- Modelled from the spec: the wire enumeration `pb.ProductType` of the
generated protobuf code, which is not among the core sources.  Protobuf
enums are open 32-bit integers; the three known values are
`DIGITAL`, `PHYSICAL`, `SUBSCRIPTION` (numbered 0, 1, 2 by protobuf
convention — the claims depend only on a value being one of the three or
not, never on the numbering). -/
abbrev PbProductType := Int

/-- `pb.ProductType_DIGITAL`. -/
def PB_DIGITAL : PbProductType := 0

/-- `pb.ProductType_PHYSICAL`. -/
def PB_PHYSICAL : PbProductType := 1

/-- `pb.ProductType_SUBSCRIPTION`. -/
def PB_SUBSCRIPTION : PbProductType := 2

/-- `pb.DigitalProduct`. -/
structure PbDigitalProduct where
  FileSize : Int
  DownloadLink : String
deriving DecidableEq

/-- `pb.PhysicalProduct`. -/
structure PbPhysicalProduct where
  Weight : Rat
  Dimensions : String
deriving DecidableEq

/-- `pb.SubscriptionProduct`. -/
structure PbSubscriptionProduct where
  SubscriptionPeriod : String
  RenewalPrice : Rat
deriving DecidableEq

/-- `pb.CreateProductRequest` (the wire message; `Type` renamed `Typ`). -/
structure PbCreateProductRequest where
  Name : String
  Description : String
  Price : Rat
  Typ : PbProductType
  DigitalProduct : Option PbDigitalProduct
  PhysicalProduct : Option PbPhysicalProduct
  SubscriptionProduct : Option PbSubscriptionProduct
deriving DecidableEq

/-- `handlers.convertFromProtobufProductType`: the three known wire values
map to their domain constants; everything else falls to the `default`
branch, `DigitalProduct`. -/
def convertFromProtobufProductType (pbType : PbProductType) : ProductType :=
  if pbType = PB_DIGITAL then DigitalProduct
  else if pbType = PB_PHYSICAL then PhysicalProduct
  else if pbType = PB_SUBSCRIPTION then SubscriptionProduct
  else DigitalProduct

/-- The gRPC status errors the handlers surface (`codes.Internal` does not
arise in the pure embedding because the embedded store always succeeds). -/
inductive GrpcErr
  | invalidArgument (msg : String)
  | notFound (msg : String)
deriving DecidableEq

/-- `handlers.convertToGRPCError` on the typed service errors. -/
def convertToGRPCError : SvcErr → GrpcErr
  | .badRequest m => .invalidArgument m
  | .notFound m => .notFound m

/-- `ProductHandler.validateTypeSpecificFields` (handler-level, lines
363-420): switches on the *wire* type value; an out-of-range value matches
no case and passes.  Go `len` on strings is the byte length
(`utf8ByteSize`). -/
def handlerValidateTypeSpecificFields (productType : PbProductType)
    (digitalProduct : Option PbDigitalProduct)
    (physicalProduct : Option PbPhysicalProduct)
    (subscriptionProduct : Option PbSubscriptionProduct) : Option String :=
  if productType = PB_DIGITAL then
    match digitalProduct with
    | none => some "digital_product is required for digital product type"
    | some d =>
      if d.DownloadLink ≠ "" ∧ SanitizeURL d.DownloadLink = "" then
        some "invalid download_link format - must be a valid URL"
      else if d.FileSize < 0 then some "file_size cannot be negative"
      else none
  else if productType = PB_PHYSICAL then
    match physicalProduct with
    | none => some "physical_product is required for physical product type"
    | some ph =>
      if ph.Weight < 0 then some "weight cannot be negative"
      else if ph.Dimensions ≠ "" ∧ 50 < ph.Dimensions.utf8ByteSize then
        some "dimensions too long"
      else none
  else if productType = PB_SUBSCRIPTION then
    match subscriptionProduct with
    | none => some "subscription_product is required for subscription product type"
    | some sb =>
      if sb.SubscriptionPeriod = "" then
        some "subscription_period is required for subscription products"
      else if sb.SubscriptionPeriod ∉
          ["daily", "weekly", "monthly", "quarterly", "yearly"] then
        some "invalid subscription_period. Must be one of: daily, weekly, monthly, quarterly, yearly"
      else if sb.RenewalPrice < 0 then some "renewal_price cannot be negative"
      else none
  else none

/-- `ProductHandler.CreateProduct`: basic input validation, sanitization,
handler-level type-specific validation, conversion to the domain request
(the variant is attached only when the wire type equals the matching known
value — a `switch` with no `default`), then the domain service call. -/
def HandlerCreateProduct (st : ProductStoreState) (req : PbCreateProductRequest) :
    Except GrpcErr Product × ProductStoreState :=
  if req.Name = "" then
    (.error (.invalidArgument "product name is required"), st)
  else if 255 < req.Name.utf8ByteSize then
    (.error (.invalidArgument "product name must be at most 255 characters"), st)
  else if 1000 < req.Description.utf8ByteSize then
    (.error (.invalidArgument "product description must be at most 1000 characters"), st)
  else if req.Price < 0 then
    (.error (.invalidArgument "product price cannot be negative"), st)
  else
    match handlerValidateTypeSpecificFields req.Typ req.DigitalProduct
        req.PhysicalProduct req.SubscriptionProduct with
    | some msg => (.error (.invalidArgument msg), st)
    | none =>
      let createReq : CreateProductRequest :=
        { Name := SanitizeString req.Name
          Description := SanitizeString req.Description
          Price := req.Price
          Typ := convertFromProtobufProductType req.Typ
          DigitalProduct :=
            if req.Typ = PB_DIGITAL then
              req.DigitalProduct.map (fun d => ⟨d.FileSize, d.DownloadLink⟩)
            else none
          PhysicalProduct :=
            if req.Typ = PB_PHYSICAL then
              req.PhysicalProduct.map (fun ph => ⟨ph.Weight, ph.Dimensions⟩)
            else none
          SubscriptionProduct :=
            if req.Typ = PB_SUBSCRIPTION then
              req.SubscriptionProduct.map (fun sb => ⟨sb.SubscriptionPeriod, sb.RenewalPrice⟩)
            else none }
      match CreateProduct st createReq with
      | (.ok p, st') => (.ok p, st')
      | (.error e, st') => (.error (convertToGRPCError e), st')

/-- `pb.CreateSubscriptionPlanRequest` (the wire message). -/
structure PbCreateSubscriptionPlanRequest where
  ProductId : String
  PlanName : String
  Duration : Int
  Price : Rat
deriving DecidableEq

/-- `SubscriptionHandler.validateAndSanitizeCreateSubscriptionPlanRequest`
(lines 168-208): `none` is success.  The Go code overwrites `req.PlanName`
with the sanitized name before the length checks; the sanitized name is what
a successful request passes on to the domain. -/
def validateCreatePlanRequest (parseUUID : String → Option UUID)
    (req : PbCreateSubscriptionPlanRequest) : Option String :=
  if req.ProductId = "" then some "product_id is required"
  else if req.PlanName = "" then some "plan_name is required"
  else
    let planName := SanitizeString req.PlanName
    if planName.utf8ByteSize < 2 then some "plan_name must be at least 2 characters"
    else if 255 < planName.utf8ByteSize then some "plan_name must be at most 255 characters"
    else if req.Duration ≤ 0 then some "duration must be greater than 0"
    else if 3650 < req.Duration then some "duration cannot exceed 10 years (3650 days)"
    else if req.Price ≤ 0 then some "price must be greater than 0"
    else if 1000000 < req.Price then some "price cannot exceed 1,000,000"
    else
      match parseUUID req.ProductId with
      | none => some "invalid product_id format"
      | some _ => none

/-! # Theorems -/

/-! ### Lemmas about trimming and escaping -/

theorem dropWhile_self {α : Type} (p : α → Bool) (l : List α) :
    (l.dropWhile p).dropWhile p = l.dropWhile p := by
  induction l with
  | nil => rfl
  | cons a l ih =>
    rw [List.dropWhile_cons]
    split
    · exact ih
    · rename_i h
      rw [List.dropWhile_cons, if_neg h]

theorem dropWhile_head_false {α : Type} (p : α → Bool) :
    ∀ (l : List α) (c : α) (t : List α), l.dropWhile p = c :: t → p c = false := by
  intro l
  induction l with
  | nil => intro c t h; simp [List.dropWhile] at h
  | cons a l ih =>
    intro c t h
    rw [List.dropWhile_cons] at h
    split at h
    · exact ih _ _ h
    · rename_i ha
      cases h
      simpa using ha

theorem dropSpaceRight_isPre (m : List Char) : dropSpaceRight m <+: m := by
  have h : (m.reverse.dropWhile goIsSpace) <:+ m.reverse := List.dropWhile_suffix _
  have h2 := List.reverse_prefix.mpr h
  simpa [dropSpaceRight] using h2

theorem dropSpaceRight_head {m : List Char} {c : Char} {t : List Char}
    (h : dropSpaceRight m = c :: t) : ∃ u, m = c :: u := by
  obtain ⟨r, hr⟩ := dropSpaceRight_isPre m
  rw [h] at hr
  exact ⟨t ++ r, by rw [← hr]; simp⟩

theorem dropSpaceLeft_trim (l : List Char) :
    dropSpaceLeft (goTrimSpaceL l) = goTrimSpaceL l := by
  unfold goTrimSpaceL
  cases hm : dropSpaceRight (dropSpaceLeft l) with
  | nil => rfl
  | cons c t =>
    obtain ⟨u, hu⟩ := dropSpaceRight_head hm
    have hc : goIsSpace c = false := by
      have := dropWhile_head_false goIsSpace l c u
      unfold dropSpaceLeft at hu
      exact this hu
    unfold dropSpaceLeft
    rw [List.dropWhile_cons, if_neg (by simp [hc])]

theorem dropSpaceRight_self (m : List Char) :
    dropSpaceRight (dropSpaceRight m) = dropSpaceRight m := by
  unfold dropSpaceRight
  rw [List.reverse_reverse, dropWhile_self]

theorem goTrimSpaceL_self (l : List Char) :
    goTrimSpaceL (goTrimSpaceL l) = goTrimSpaceL l := by
  show dropSpaceRight (dropSpaceLeft (goTrimSpaceL l)) = goTrimSpaceL l
  rw [dropSpaceLeft_trim]
  show dropSpaceRight (dropSpaceRight (dropSpaceLeft l)) = goTrimSpaceL l
  rw [dropSpaceRight_self]
  rfl

theorem escapeChar_eq_self {c : Char} (h : isEscapedChar c = false) :
    escapeChar c = [c] := by
  simp only [isEscapedChar, Bool.or_eq_false_iff, decide_eq_false_iff_not] at h
  obtain ⟨⟨⟨⟨h1, h2⟩, h3⟩, h4⟩, h5⟩ := h
  simp [escapeChar, h1, h2, h3, h4, h5]

theorem escapeHTMLL_eq_self {l : List Char} (h : ∀ c ∈ l, isEscapedChar c = false) :
    escapeHTMLL l = l := by
  induction l with
  | nil => rfl
  | cons a l ih =>
    show escapeChar a ++ escapeHTMLL l = a :: l
    rw [escapeChar_eq_self (h a (by simp)), ih (fun c hc => h c (by simp [hc]))]
    rfl

/-- C3 counterexample: the sanitizer is not idempotent on the one-character
string consisting of a single less-than sign — the first pass yields the
entity text, whose ampersand the second pass escapes again. -/
theorem sanitize_not_idempotent_on_lt :
    SanitizeString (SanitizeString "<") ≠ SanitizeString "<" := by decide

/-- C3 (amended): the sanitizer is idempotent on every string whose trimmed
form contains none of the five reserved characters.  (On strings that do
contain one, the first pass introduces an ampersand that the second pass
escapes again, as the counterexample shows.) -/
theorem sanitize_idem_of_no_escaped (s : String)
    (h : ∀ c ∈ goTrimSpaceL s.data, isEscapedChar c = false) :
    SanitizeString (SanitizeString s) = SanitizeString s := by
  have e1 : escapeHTMLL (goTrimSpaceL s.data) = goTrimSpaceL s.data :=
    escapeHTMLL_eq_self h
  show SanitizeString ⟨escapeHTMLL (goTrimSpaceL s.data)⟩ = _
  rw [e1]
  show (⟨escapeHTMLL (goTrimSpaceL (goTrimSpaceL s.data))⟩ : String) = _
  rw [goTrimSpaceL_self, e1]
  show (⟨goTrimSpaceL s.data⟩ : String) = ⟨escapeHTMLL (goTrimSpaceL s.data)⟩
  rw [e1]

/-- C3 witness: the amended idempotence theorem applied to a concrete
escape-free string. -/
theorem sanitize_idem_witness :
    SanitizeString (SanitizeString "  hello world  ") = SanitizeString "  hello world  " :=
  sanitize_idem_of_no_escaped "  hello world  " (by decide)

/-! ### Base64 round-trip -/

theorem b64Char_ne_pad (n : Nat) : b64Char n ≠ 61 := by
  unfold b64Char
  split_ifs <;> omega

theorem b64Char_ne_newline (n : Nat) : b64Char n ≠ 13 ∧ b64Char n ≠ 10 := by
  unfold b64Char
  split_ifs <;> omega

theorem b64Index_b64Char : ∀ n < 64, b64Index (b64Char n) = some n := by decide

theorem base64Encode_no_newlines (bs : List Nat) :
    ∀ c ∈ base64Encode bs, c ≠ 13 ∧ c ≠ 10 := by
  induction bs using base64Encode.induct with
  | case1 => intro c hc; simp [base64Encode] at hc
  | case2 b1 =>
    intro c hc
    simp only [base64Encode, List.mem_cons, List.not_mem_nil, or_false] at hc
    rcases hc with h | h | h | h <;> subst h
    · exact b64Char_ne_newline _
    · exact b64Char_ne_newline _
    · exact ⟨by omega, by omega⟩
    · exact ⟨by omega, by omega⟩
  | case3 b1 b2 =>
    intro c hc
    simp only [base64Encode, List.mem_cons, List.not_mem_nil, or_false] at hc
    rcases hc with h | h | h | h <;> subst h
    · exact b64Char_ne_newline _
    · exact b64Char_ne_newline _
    · exact b64Char_ne_newline _
    · exact ⟨by omega, by omega⟩
  | case4 b1 b2 b3 rest ih =>
    intro c hc
    simp only [base64Encode, List.mem_cons] at hc
    rcases hc with h | h | h | h | h
    · subst h; exact b64Char_ne_newline _
    · subst h; exact b64Char_ne_newline _
    · subst h; exact b64Char_ne_newline _
    · subst h; exact b64Char_ne_newline _
    · exact ih c h

theorem base64Encode_filter (bs : List Nat) :
    (base64Encode bs).filter (fun c => c ≠ 13 && c ≠ 10) = base64Encode bs := by
  rw [List.filter_eq_self]
  intro c hc
  have h := base64Encode_no_newlines bs c hc
  simp [h.1, h.2]

theorem base64DecodeChunks_encode (bs : List Nat) (hb : ∀ b ∈ bs, b < 256) :
    base64DecodeChunks (base64Encode bs) = some bs := by
  induction bs using base64Encode.induct with
  | case1 => rfl
  | case2 b1 =>
    have hb1 : b1 < 256 := hb b1 (by simp)
    have h1 := b64Index_b64Char (b1 / 4) (by omega)
    have h2 := b64Index_b64Char (b1 % 4 * 16) (by omega)
    simp only [base64Encode, base64DecodeChunks, h1, h2]
    simp only [and_self, if_true, Option.some.injEq, List.cons.injEq, and_true]
    omega
  | case3 b1 b2 =>
    have hb1 : b1 < 256 := hb b1 (by simp)
    have hb2 : b2 < 256 := hb b2 (by simp)
    have h1 := b64Index_b64Char (b1 / 4) (by omega)
    have h2 := b64Index_b64Char (b1 % 4 * 16 + b2 / 16) (by omega)
    have h3 := b64Index_b64Char (b2 % 16 * 4) (by omega)
    simp only [base64Encode, base64DecodeChunks, h1, h2, h3,
      if_neg (b64Char_ne_pad (b2 % 16 * 4))]
    simp only [and_self, if_true, Option.some.injEq, List.cons.injEq, and_true]
    constructor <;> omega
  | case4 b1 b2 b3 rest ih =>
    have hb1 : b1 < 256 := hb b1 (by simp)
    have hb2 : b2 < 256 := hb b2 (by simp)
    have hb3 : b3 < 256 := hb b3 (by simp)
    have hrest : ∀ b ∈ rest, b < 256 := fun b h => hb b (by simp [h])
    have h1 := b64Index_b64Char (b1 / 4) (by omega)
    have h2 := b64Index_b64Char (b1 % 4 * 16 + b2 / 16) (by omega)
    have h3 := b64Index_b64Char (b2 % 16 * 4 + b3 / 64) (by omega)
    have h4 := b64Index_b64Char (b3 % 64) (by omega)
    simp only [base64Encode, base64DecodeChunks, h1, h2, h3, h4,
      if_neg (b64Char_ne_pad (b2 % 16 * 4 + b3 / 64)),
      if_neg (b64Char_ne_pad (b3 % 64)), ih hrest]
    simp only [and_self, if_true, Option.some.injEq, List.cons.injEq, and_true]
    refine ⟨by omega, by omega, by omega⟩

theorem base64_roundtrip (bs : List Nat) (hb : ∀ b ∈ bs, b < 256) :
    base64Decode (base64Encode bs) = some bs := by
  unfold base64Decode
  rw [base64Encode_filter]
  exact base64DecodeChunks_encode bs hb

/-! ### Helper lemmas for the authenticate pipeline -/

theorem isPfxList_append {α : Type} [DecidableEq α] (p x : List α) :
    isPfxList p (p ++ x) = true := by
  induction p with
  | nil => rfl
  | cons a p ih => simp [isPfxList, ih]

theorem trimPfx_append (p x : GoStr) : trimPfx p (p ++ x) = x := by
  unfold trimPfx
  rw [if_pos (isPfxList_append p x), List.drop_left]

theorem splitFirstColon_append (u p : GoStr) (hu : 58 ∉ u) :
    splitFirstColon (u ++ 58 :: p) = some (u, p) := by
  induction u with
  | nil => simp [splitFirstColon]
  | cons c cs ih =>
    have hc : c ≠ 58 := fun h => hu (by simp [h])
    have hcs : 58 ∉ cs := fun h => hu (by simp [h])
    simp only [List.cons_append, splitFirstColon, if_neg hc, List.append_eq, ih hcs]

/-! ### Claim C2 -/

/-- C2 counterexample: a streaming call to a method ending in the
health-check suffix `/Health`, carrying no metadata, is rejected with
`missing metadata` instead of being allowed through — the stream interceptor
has no bypass, so the bypass does not apply to "every call, whether unary or
streaming". -/
theorem stream_health_not_bypassed :
    isSfxList (bstr "/Health") (bstr "/grpc.health.v1.Health/Health") = true ∧
    StreamInterceptor defaultUsers (bstr "/grpc.health.v1.Health/Health") none (0 : Nat) =
      .error .missingMetadata ∧
    StreamInterceptor defaultUsers (bstr "/grpc.health.v1.Health/Health") none (0 : Nat) ≠
      .ok 0 := by
  refine ⟨by decide, rfl, ?_⟩
  intro hc
  exact Except.noConfusion hc

/-- C2 (amended): only unary calls whose full method name ends in `/Health`
skip the authentication gate — such a call runs the handler even with no
metadata and no authorization header, and no other unary call skips it; a
streaming call is always authenticated, whatever its method name. -/
theorem interceptor_bypass (α : Type) (users : List (GoStr × GoStr))
    (m : GoStr) (ctx : Option Metadata) (h : α) :
    (isSfxList (bstr "/Health") m = true → UnaryInterceptor users m ctx h = .ok h) ∧
    (isSfxList (bstr "/Health") m = false →
      UnaryInterceptor users m ctx h =
        match authenticate users ctx with
        | some e => .error e
        | none => .ok h) ∧
    (StreamInterceptor users m ctx h =
      match authenticate users ctx with
      | some e => .error e
      | none => .ok h) := by
  refine ⟨fun hs => ?_, fun hs => ?_, rfl⟩
  · simp [UnaryInterceptor, hs]
  · simp [UnaryInterceptor, hs]

/-- C2 witness: a unary health-check call with no metadata at all runs the
handler. -/
theorem interceptor_bypass_witness :
    UnaryInterceptor defaultUsers (bstr "/grpc.health.v1.Health/Health") none (0 : Nat) =
      .ok 0 :=
  (interceptor_bypass Nat defaultUsers (bstr "/grpc.health.v1.Health/Health") none 0).1
    (by decide)

/-! ### Claim C6 -/

/-- C6: the authentication check proceeds in the source's fixed order, failing
with the stated `Unauthenticated` message at the first failing step: no
metadata, then no authorization header, then a header not of the `Basic `
scheme, then undecodable base64, then a decoded payload without a colon; the
decoded payload is split at the first colon only, so for every colon-free
username `u` and every password `p` (colons allowed), the header
`Basic base64(u:p)` authenticates exactly when the stored mapping maps `u` to
`p`; on success the interceptors run the handler unchanged. -/
theorem authenticate_spec (users : List (GoStr × GoStr)) :
    (authenticate users none = some .missingMetadata ∧
      AuthErr.msg .missingMetadata = "missing metadata") ∧
    (∀ md : Metadata, md.get (bstr "authorization") = [] →
      authenticate users (some md) = some .missingAuthHeader ∧
      AuthErr.msg .missingAuthHeader = "missing authorization header") ∧
    (∀ (md : Metadata) (hd : GoStr) (rest : List GoStr),
      md.get (bstr "authorization") = hd :: rest →
      isPfxList (bstr "Basic ") hd = false →
      authenticate users (some md) = some .invalidHeaderFormat ∧
      AuthErr.msg .invalidHeaderFormat = "invalid authorization header format") ∧
    (∀ (md : Metadata) (hd : GoStr) (rest : List GoStr),
      md.get (bstr "authorization") = hd :: rest →
      isPfxList (bstr "Basic ") hd = true →
      base64Decode (trimPfx (bstr "Basic ") hd) = none →
      authenticate users (some md) = some .invalidBase64) ∧
    (∀ (md : Metadata) (hd : GoStr) (rest : List GoStr) (creds : GoStr),
      md.get (bstr "authorization") = hd :: rest →
      isPfxList (bstr "Basic ") hd = true →
      base64Decode (trimPfx (bstr "Basic ") hd) = some creds →
      splitFirstColon creds = none →
      authenticate users (some md) = some .invalidCredsFormat) ∧
    (∀ (md : Metadata) (rest : List GoStr) (u p : GoStr),
      md.get (bstr "authorization") =
        (bstr "Basic " ++ base64Encode (u ++ 58 :: p)) :: rest →
      58 ∉ u → (∀ b ∈ u, b < 256) → (∀ b ∈ p, b < 256) →
      (authenticate users (some md) = none ↔ mapLookup users u = some p)) ∧
    (∀ (α : Type) (m : GoStr) (ctx : Option Metadata) (h : α),
      authenticate users ctx = none →
      UnaryInterceptor users m ctx h = .ok h ∧
      StreamInterceptor users m ctx h = .ok h) := by
  refine ⟨⟨rfl, rfl⟩, ?_, ?_, ?_, ?_, ?_, ?_⟩
  · intro md hmd
    exact ⟨by simp [authenticate, hmd], rfl⟩
  · intro md hd rest hmd hpfx
    refine ⟨?_, rfl⟩
    simp [authenticate, hmd, hpfx]
  · intro md hd rest hmd hpfx hdec
    simp [authenticate, hmd, hpfx, hdec]
  · intro md hd rest creds hmd hpfx hdec hsplit
    simp [authenticate, hmd, hpfx, hdec, hsplit]
  · intro md rest u p hmd hu hub hpb
    have hbytes : ∀ b ∈ u ++ 58 :: p, b < 256 := by
      intro b hb
      rcases List.mem_append.mp hb with h | h
      · exact hub b h
      · rcases List.mem_cons.mp h with h | h
        · omega
        · exact hpb b h
    have hdec : base64Decode (trimPfx (bstr "Basic ")
        (bstr "Basic " ++ base64Encode (u ++ 58 :: p))) = some (u ++ 58 :: p) := by
      rw [trimPfx_append]
      exact base64_roundtrip _ hbytes
    have hpfx : isPfxList (bstr "Basic ")
        (bstr "Basic " ++ base64Encode (u ++ 58 :: p)) = true :=
      isPfxList_append _ _
    have hsplit := splitFirstColon_append u p hu
    simp only [authenticate, hmd, hpfx, if_true, hdec, hsplit]
    unfold ValidateCredentials
    cases hlook : mapLookup users u with
    | none => simp [hlook]
    | some stored =>
      by_cases hsp : stored = p
      · subst hsp; simp [hlook]
      · simp [hlook, hsp]
  · intro α m ctx h hauth
    constructor
    · unfold UnaryInterceptor
      split
      · rfl
      · simp [hauth]
    · unfold StreamInterceptor
      simp [hauth]

/-- C6 witness: the success criterion applied to the predefined `admin` user
with its stored password, a password containing no colon, and also the
missing-metadata case. -/
theorem authenticate_spec_witness :
    authenticate defaultUsers
      (some ⟨[(bstr "authorization",
               [bstr "Basic " ++ base64Encode (bstr "admin" ++ 58 :: bstr "password123")])]⟩) =
      none ∧
    authenticate defaultUsers none = some .missingMetadata := by
  have hmain := (authenticate_spec defaultUsers).2.2.2.2.2.1
    ⟨[(bstr "authorization",
       [bstr "Basic " ++ base64Encode (bstr "admin" ++ 58 :: bstr "password123")])]⟩
    [] (bstr "admin") (bstr "password123") rfl (by decide) (by decide) (by decide)
  exact ⟨hmain.mpr (by decide), (authenticate_spec defaultUsers).1.1⟩

/-! ### Claim C8 -/

/-- C8: product list defaults non-positive pagination — page ≤ 0 becomes 1,
pageSize ≤ 0 becomes 10 — so for every type filter and every storage
collaborator, `list(filter, 0, 0)` returns exactly the page and the total of
`list(filter, 1, 10)`; and for positive inputs the page is fetched with
limit `pageSize` and offset `(page-1)*pageSize`, the total coming from the
separate count query that ignores pagination. -/
theorem list_products_defaults
    (getAll : Option ProductType → Int → Int → List Product)
    (count : Option ProductType → Int) (typeFilter : Option ProductType) :
    ListProducts getAll count typeFilter 0 0 = ListProducts getAll count typeFilter 1 10 ∧
    (∀ page pageSize : Int, 0 < page → 0 < pageSize →
      ListProducts getAll count typeFilter page pageSize =
        (getAll typeFilter pageSize ((page - 1) * pageSize), count typeFilter)) := by
  constructor
  · norm_num [ListProducts]
  · intro page pageSize hp hps
    simp only [ListProducts]
    rw [if_neg (by omega : ¬ page ≤ 0), if_neg (by omega : ¬ pageSize ≤ 0)]

/-- C8 witness: the normalization applied at a concrete store, filter and
page. -/
theorem list_products_defaults_witness :
    ListProducts (fun _ lim off => [⟨lim.toNat, "", "", 0, DigitalProduct, none, none, none⟩,
                                    ⟨off.toNat, "", "", 0, DigitalProduct, none, none, none⟩])
      (fun _ => 5) (some DigitalProduct) 2 5 =
      ([⟨5, "", "", 0, DigitalProduct, none, none, none⟩,
        ⟨5, "", "", 0, DigitalProduct, none, none, none⟩], 5) :=
  ((list_products_defaults _ _ (some DigitalProduct)).2 2 5 (by norm_num)
    (by norm_num)).trans (by decide)

/-! ### Claim C10 -/

/-- C10: the subscription domain service imposes no range or presence
constraints of its own: for every plan name (empty allowed), every duration
and every price (zero and negatives allowed), `CreateSubscriptionPlan`
constructs and persists the plan whenever the product identifier parses;
the duration 1..3650 and positive-price rules live only in the handler's
wire-level validation, which rejects exactly as stated. -/
theorem plan_create_domain_unconstrained
    (parseUUID : String → Option UUID) (st : PlanStoreState)
    (req : CreateSubscriptionPlanRequest) (u : UUID)
    (hparse : parseUUID req.ProductID = some u) :
    (CreateSubscriptionPlan parseUUID st req =
      (.ok { ID := st.freshID, ProductID := u, PlanName := req.PlanName,
             Duration := req.Duration, Price := req.Price },
       { st with rows := st.rows ++
           [{ ID := st.freshID, ProductID := u, PlanName := req.PlanName,
              Duration := req.Duration, Price := req.Price }] })) ∧
    (∀ wreq : PbCreateSubscriptionPlanRequest,
      wreq.ProductId ≠ "" → wreq.PlanName ≠ "" →
      2 ≤ (SanitizeString wreq.PlanName).utf8ByteSize →
      (SanitizeString wreq.PlanName).utf8ByteSize ≤ 255 →
      ((wreq.Duration ≤ 0 →
         validateCreatePlanRequest parseUUID wreq =
           some "duration must be greater than 0") ∧
       (0 < wreq.Duration → 3650 < wreq.Duration →
         validateCreatePlanRequest parseUUID wreq =
           some "duration cannot exceed 10 years (3650 days)") ∧
       (0 < wreq.Duration → wreq.Duration ≤ 3650 → wreq.Price ≤ 0 →
         validateCreatePlanRequest parseUUID wreq =
           some "price must be greater than 0"))) := by
  constructor
  · simp [CreateSubscriptionPlan, hparse]
  · intro wreq h1 h2 h3 h4
    refine ⟨fun hdur => ?_, fun hdur1 hdur2 => ?_, fun hdur1 hdur2 hpr => ?_⟩
    · simp only [validateCreatePlanRequest]
      rw [if_neg h1, if_neg h2, if_neg (by omega), if_neg (by omega), if_pos hdur]
    · simp only [validateCreatePlanRequest]
      rw [if_neg h1, if_neg h2, if_neg (by omega), if_neg (by omega),
        if_neg (by omega), if_pos hdur2]
    · simp only [validateCreatePlanRequest]
      rw [if_neg h1, if_neg h2, if_neg (by omega), if_neg (by omega),
        if_neg (by omega), if_neg (by omega), if_pos hpr]

/-- C10 witness: a plan with empty name, negative duration and negative
price is constructed and persisted by the domain service once the product id
parses, while the handler validation rejects a zero duration. -/
theorem plan_create_domain_unconstrained_witness :
    CreateSubscriptionPlan
      (fun s => if s = "pid" then some 1 else none) ⟨[], 42⟩
      { ProductID := "pid", PlanName := "", Duration := -5, Price := -3 } =
      (.ok { ID := 42, ProductID := 1, PlanName := "", Duration := -5, Price := -3 },
       ⟨[{ ID := 42, ProductID := 1, PlanName := "", Duration := -5, Price := -3 }], 42⟩) ∧
    validateCreatePlanRequest (fun s => if s = "pid" then some 1 else none)
      { ProductId := "pid", PlanName := "ab", Duration := 0, Price := 10 } =
      some "duration must be greater than 0" := by
  have h := plan_create_domain_unconstrained
    (fun s => if s = "pid" then some 1 else none) ⟨[], 42⟩
    { ProductID := "pid", PlanName := "", Duration := -5, Price := -3 } 1 (by decide)
  exact ⟨h.1, (h.2 { ProductId := "pid", PlanName := "ab", Duration := 0, Price := 10 }
    (by decide) (by decide) (by decide) (by decide)).1 (by norm_num)⟩

theorem digital_ne_physical : DigitalProduct ≠ PhysicalProduct := by decide

theorem digital_ne_subscription : DigitalProduct ≠ SubscriptionProduct := by decide

theorem physical_ne_subscription : PhysicalProduct ≠ SubscriptionProduct := by decide

/-! ### Claim C4 -/

/-- C4: for every valid create request — known type, matching variant
present, per-variant constraints satisfied — `CreateProduct` succeeds, the
entity is persisted, and it carries the freshly generated identifier, the
request's name/description/price/type, and only the variant payload matching
the declared type, the other two absent. -/
theorem create_product_success (st : ProductStoreState) (req : CreateProductRequest)
    (hv : (req.Typ = DigitalProduct ∧ ∃ d, req.DigitalProduct = some d ∧
            0 < d.FileSize ∧ d.DownloadLink ≠ "") ∨
          (req.Typ = PhysicalProduct ∧ ∃ ph, req.PhysicalProduct = some ph ∧
            0 < ph.Weight ∧ ph.Dimensions ≠ "") ∨
          (req.Typ = SubscriptionProduct ∧ ∃ sb, req.SubscriptionProduct = some sb ∧
            sb.SubscriptionPeriod ≠ "" ∧ 0 < sb.RenewalPrice)) :
    CreateProduct st req =
      (.ok (productFromRequest st.freshID req),
       { st with rows := st.rows ++ [productFromRequest st.freshID req] }) ∧
    (productFromRequest st.freshID req).ID = st.freshID ∧
    (∀ q ∈ st.rows, q.ID ≠ st.freshID → (productFromRequest st.freshID req).ID ≠ q.ID) ∧
    (productFromRequest st.freshID req).Name = req.Name ∧
    (productFromRequest st.freshID req).Description = req.Description ∧
    (productFromRequest st.freshID req).Price = req.Price ∧
    (productFromRequest st.freshID req).Typ = req.Typ ∧
    (req.Typ = DigitalProduct →
      (productFromRequest st.freshID req).DigitalProductInfo = req.DigitalProduct ∧
      (productFromRequest st.freshID req).PhysicalProductInfo = none ∧
      (productFromRequest st.freshID req).SubscriptionProductInfo = none) ∧
    (req.Typ = PhysicalProduct →
      (productFromRequest st.freshID req).PhysicalProductInfo = req.PhysicalProduct ∧
      (productFromRequest st.freshID req).DigitalProductInfo = none ∧
      (productFromRequest st.freshID req).SubscriptionProductInfo = none) ∧
    (req.Typ = SubscriptionProduct →
      (productFromRequest st.freshID req).SubscriptionProductInfo = req.SubscriptionProduct ∧
      (productFromRequest st.freshID req).DigitalProductInfo = none ∧
      (productFromRequest st.freshID req).PhysicalProductInfo = none) := by
  have hvalid : productTypeIsValid req.Typ = true := by
    rcases hv with ⟨hT, _⟩ | ⟨hT, _⟩ | ⟨hT, _⟩ <;> rw [hT] <;> decide
  have hval : validateTypeSpecificFields req.Typ req.DigitalProduct
      req.PhysicalProduct req.SubscriptionProduct = none := by
    rcases hv with ⟨hT, d, hd, hfs, hdl⟩ | ⟨hT, ph, hph, hw, hdm⟩ | ⟨hT, sb, hsb, hspn, hrp⟩
    · rw [hT, hd]
      show (if d.FileSize ≤ 0 then _ else if d.DownloadLink = "" then _ else none) = none
      rw [if_neg (by omega), if_neg hdl]
    · rw [hT, hph]
      show (if ph.Weight ≤ 0 then _ else if ph.Dimensions = "" then _ else none) = none
      rw [if_neg (by exact not_le.mpr hw), if_neg hdm]
    · rw [hT, hsb]
      show (if sb.SubscriptionPeriod = "" then _
            else if sb.RenewalPrice ≤ 0 then _ else none) = none
      rw [if_neg hspn, if_neg (by exact not_le.mpr hrp)]
  refine ⟨?_, rfl, ?_, rfl, rfl, rfl, rfl, ?_, ?_, ?_⟩
  · unfold CreateProduct
    rw [if_neg (not_not_intro hvalid), hval]
  · intro q _ hq
    show st.freshID ≠ q.ID
    exact fun h => hq h.symm
  · intro hT
    refine ⟨?_, ?_, ?_⟩ <;>
      simp [productFromRequest, hT, digital_ne_physical, digital_ne_subscription]
  · intro hT
    refine ⟨?_, ?_, ?_⟩ <;>
      simp [productFromRequest, hT, Ne.symm digital_ne_physical, physical_ne_subscription]
  · intro hT
    refine ⟨?_, ?_, ?_⟩ <;>
      simp [productFromRequest, hT, Ne.symm digital_ne_subscription,
        Ne.symm physical_ne_subscription]

/-- C4 witness: a concrete digital create with file size 1 and a non-empty
link succeeds, persists, and populates only the digital variant. -/
theorem create_product_success_witness :
    CreateProduct ⟨[], 7⟩
      { Name := "Song", Description := "mp3", Price := 2, Typ := DigitalProduct,
        DigitalProduct := some ⟨1, "https://a.com/s.mp3"⟩,
        PhysicalProduct := none, SubscriptionProduct := none } =
      (.ok (productFromRequest 7
        { Name := "Song", Description := "mp3", Price := 2, Typ := DigitalProduct,
          DigitalProduct := some ⟨1, "https://a.com/s.mp3"⟩,
          PhysicalProduct := none, SubscriptionProduct := none }),
       ⟨[productFromRequest 7
        { Name := "Song", Description := "mp3", Price := 2, Typ := DigitalProduct,
          DigitalProduct := some ⟨1, "https://a.com/s.mp3"⟩,
          PhysicalProduct := none, SubscriptionProduct := none }], 7⟩) :=
  (create_product_success ⟨[], 7⟩ _
    (Or.inl ⟨rfl, ⟨1, "https://a.com/s.mp3"⟩, rfl, by norm_num, by decide⟩)).1

/-! ### Claim C5 -/

theorem createProduct_error_iff (st : ProductStoreState) (req : CreateProductRequest) :
    (∃ msg, (CreateProduct st req).1 = .error (.badRequest msg)) ↔
      (productTypeIsValid req.Typ = false ∨
       validateTypeSpecificFields req.Typ req.DigitalProduct
         req.PhysicalProduct req.SubscriptionProduct ≠ none) := by
  unfold CreateProduct
  by_cases hv : productTypeIsValid req.Typ = true
  · rw [if_neg (not_not_intro hv)]
    cases hval : validateTypeSpecificFields req.Typ req.DigitalProduct
        req.PhysicalProduct req.SubscriptionProduct with
    | none => simp [hval, hv]
    | some msg => simp [hval, hv]
  · rw [if_pos (by simpa using hv)]
    simp only [Bool.not_eq_true] at hv
    simp [hv]

theorem validate_digital_err_iff (dp : Option DigitalProductInfo)
    (pp : Option PhysicalProductInfo) (sp : Option SubscriptionProductInfo) :
    validateTypeSpecificFields DigitalProduct dp pp sp ≠ none ↔
      (dp = none ∨ ∃ d, dp = some d ∧ (d.FileSize ≤ 0 ∨ d.DownloadLink = "")) := by
  cases dp with
  | none => simp [validateTypeSpecificFields]
  | some d =>
    by_cases hfs : d.FileSize ≤ 0 <;> by_cases hdl : d.DownloadLink = "" <;>
      simp [validateTypeSpecificFields, hfs, hdl]

theorem validate_physical_err_iff (dp : Option DigitalProductInfo)
    (pp : Option PhysicalProductInfo) (sp : Option SubscriptionProductInfo) :
    validateTypeSpecificFields PhysicalProduct dp pp sp ≠ none ↔
      (pp = none ∨ ∃ ph, pp = some ph ∧ (ph.Weight ≤ 0 ∨ ph.Dimensions = "")) := by
  cases pp with
  | none => simp [validateTypeSpecificFields, Ne.symm digital_ne_physical]
  | some ph =>
    by_cases hw : ph.Weight ≤ 0 <;> by_cases hdm : ph.Dimensions = "" <;>
      simp [validateTypeSpecificFields, hw, hdm, Ne.symm digital_ne_physical]

theorem validate_subscription_err_iff (dp : Option DigitalProductInfo)
    (pp : Option PhysicalProductInfo) (sp : Option SubscriptionProductInfo) :
    validateTypeSpecificFields SubscriptionProduct dp pp sp ≠ none ↔
      (sp = none ∨ ∃ sb, sp = some sb ∧ (sb.SubscriptionPeriod = "" ∨ sb.RenewalPrice ≤ 0)) := by
  cases sp with
  | none =>
    simp [validateTypeSpecificFields, Ne.symm digital_ne_subscription,
      Ne.symm physical_ne_subscription]
  | some sb =>
    by_cases hsp : sb.SubscriptionPeriod = "" <;> by_cases hrp : sb.RenewalPrice ≤ 0 <;>
      simp [validateTypeSpecificFields, hsp, hrp, Ne.symm digital_ne_subscription,
        Ne.symm physical_ne_subscription]

theorem validate_unknown_type (t : ProductType) (dp : Option DigitalProductInfo)
    (pp : Option PhysicalProductInfo) (sp : Option SubscriptionProductInfo)
    (h1 : t ≠ DigitalProduct) (h2 : t ≠ PhysicalProduct) (h3 : t ≠ SubscriptionProduct) :
    validateTypeSpecificFields t dp pp sp = none := by
  unfold validateTypeSpecificFields
  rw [if_neg h1, if_neg h2, if_neg h3]

/-- C5: product create fails with BadRequest exactly when the type is not
one of the three known values, or the variant payload for the declared type
is absent, or a per-variant constraint is violated (Digital: file size ≤ 0
or empty link; Physical: weight ≤ 0 or empty dimensions; Subscription: empty
period or renewal price ≤ 0); in every such case the store is unchanged —
nothing is persisted. -/
theorem create_product_badrequest_iff (st : ProductStoreState) (req : CreateProductRequest) :
    ((∃ msg, (CreateProduct st req).1 = .error (.badRequest msg)) ↔
      (productTypeIsValid req.Typ = false ∨
       (req.Typ = DigitalProduct ∧ (req.DigitalProduct = none ∨
          ∃ d, req.DigitalProduct = some d ∧ (d.FileSize ≤ 0 ∨ d.DownloadLink = ""))) ∨
       (req.Typ = PhysicalProduct ∧ (req.PhysicalProduct = none ∨
          ∃ ph, req.PhysicalProduct = some ph ∧ (ph.Weight ≤ 0 ∨ ph.Dimensions = ""))) ∨
       (req.Typ = SubscriptionProduct ∧ (req.SubscriptionProduct = none ∨
          ∃ sb, req.SubscriptionProduct = some sb ∧
            (sb.SubscriptionPeriod = "" ∨ sb.RenewalPrice ≤ 0))))) ∧
    ((∃ msg, (CreateProduct st req).1 = .error (.badRequest msg)) →
      (CreateProduct st req).2 = st) := by
  constructor
  · rw [createProduct_error_iff]
    constructor
    · rintro (h | h)
      · exact Or.inl h
      · by_cases h1 : req.Typ = DigitalProduct
        · rw [h1] at h
          exact Or.inr (Or.inl ⟨h1, (validate_digital_err_iff _ _ _).mp h⟩)
        · by_cases h2 : req.Typ = PhysicalProduct
          · rw [h2] at h
            exact Or.inr (Or.inr (Or.inl ⟨h2, (validate_physical_err_iff _ _ _).mp h⟩))
          · by_cases h3 : req.Typ = SubscriptionProduct
            · rw [h3] at h
              exact Or.inr (Or.inr (Or.inr ⟨h3, (validate_subscription_err_iff _ _ _).mp h⟩))
            · exact absurd (validate_unknown_type _ _ _ _ h1 h2 h3) h
    · rintro (h | ⟨hT, hc⟩ | ⟨hT, hc⟩ | ⟨hT, hc⟩)
      · exact Or.inl h
      · exact Or.inr (by rw [hT]; exact (validate_digital_err_iff _ _ _).mpr hc)
      · exact Or.inr (by rw [hT]; exact (validate_physical_err_iff _ _ _).mpr hc)
      · exact Or.inr (by rw [hT]; exact (validate_subscription_err_iff _ _ _).mpr hc)
  · intro herr
    unfold CreateProduct
    by_cases hv : productTypeIsValid req.Typ = true
    · rw [if_neg (not_not_intro hv)]
      cases hval : validateTypeSpecificFields req.Typ req.DigitalProduct
          req.PhysicalProduct req.SubscriptionProduct with
      | none =>
        exfalso
        rcases (createProduct_error_iff st req).mp herr with h | h
        · rw [hv] at h
          cases h
        · exact h hval
      | some msg => rfl
    · rw [if_pos (by simpa using hv)]

/-- C5 witness: creating a digital product with file size 0 is a BadRequest
and the store is unchanged. -/
theorem create_product_badrequest_witness :
    (CreateProduct ⟨[], 7⟩
      { Name := "x", Description := "", Price := 1, Typ := DigitalProduct,
        DigitalProduct := some ⟨0, "https://a.com"⟩,
        PhysicalProduct := none, SubscriptionProduct := none }).2 = ⟨[], 7⟩ :=
  (create_product_badrequest_iff ⟨[], 7⟩ _).2
    ⟨"file size must be greater than 0 for digital products", rfl⟩

/-! ### Claims C1 and C7: the update-set characterization -/

theorem mem_ite_list {α : Type} (a : α) (c : Prop) [Decidable c] (l1 l2 : List α) :
    a ∈ (if c then l1 else l2) ↔ (c ∧ a ∈ l1) ∨ (¬ c ∧ a ∈ l2) := by
  split <;> rename_i h <;> simp [h]

/-- Complete characterization of the keys of the update set
`ProductService.UpdateProduct` builds: a key is present exactly when its
field is present in the request — for variant sub-fields, only under the
existing entity's type. -/
theorem mem_keys_buildProductUpdates (t : ProductType) (req : UpdateProductRequest)
    (k : String) :
    k ∈ (buildProductUpdates t req).map Prod.fst ↔
      ((k = "name" ∧ req.Name ≠ "") ∨
       (k = "description" ∧ req.Description ≠ "") ∨
       (k = "price" ∧ req.Price ≠ none) ∨
       (t = DigitalProduct ∧ ∃ d, req.DigitalProduct = some d ∧
          ((k = "digital_file_size" ∧ 0 < d.FileSize) ∨
           (k = "digital_download_link" ∧ d.DownloadLink ≠ ""))) ∨
       (t = PhysicalProduct ∧ ∃ ph, req.PhysicalProduct = some ph ∧
          ((k = "physical_weight" ∧ 0 < ph.Weight) ∨
           (k = "physical_dimensions" ∧ ph.Dimensions ≠ ""))) ∨
       (t = SubscriptionProduct ∧ ∃ sb, req.SubscriptionProduct = some sb ∧
          ((k = "subscription_period" ∧ sb.SubscriptionPeriod ≠ "") ∨
           (k = "subscription_renewal_price" ∧ 0 < sb.RenewalPrice)))) := by
  by_cases h1 : t = DigitalProduct
  · subst h1
    rcases hD : req.DigitalProduct with _ | d <;> rcases hQ : req.Price with _ | pr <;>
      simp [buildProductUpdates, hD, hQ, mem_ite_list, List.map_append,
        apply_ite (List.map (Prod.fst (α := String) (β := UpdVal))),
        digital_ne_physical, digital_ne_subscription] <;> tauto
  · by_cases h2 : t = PhysicalProduct
    · subst h2
      rcases hP : req.PhysicalProduct with _ | ph <;> rcases hQ : req.Price with _ | pr <;>
        simp [buildProductUpdates, hP, hQ, mem_ite_list, List.map_append,
          apply_ite (List.map (Prod.fst (α := String) (β := UpdVal))),
          Ne.symm digital_ne_physical, physical_ne_subscription] <;> tauto
    · by_cases h3 : t = SubscriptionProduct
      · subst h3
        rcases hS : req.SubscriptionProduct with _ | sb <;> rcases hQ : req.Price with _ | pr <;>
          simp [buildProductUpdates, hS, hQ, mem_ite_list, List.map_append,
            apply_ite (List.map (Prod.fst (α := String) (β := UpdVal))),
            Ne.symm digital_ne_subscription, Ne.symm physical_ne_subscription] <;> tauto
      · rcases hQ : req.Price with _ | pr <;>
          simp [buildProductUpdates, hQ, h1, h2, h3, mem_ite_list, List.map_append,
            apply_ite (List.map (Prod.fst (α := String) (β := UpdVal)))] <;> tauto

theorem buildProductUpdates_scrub (t : ProductType) (req : UpdateProductRequest)
    (d' : Option DigitalProductInfo) (ph' : Option PhysicalProductInfo)
    (sb' : Option SubscriptionProductInfo) :
    buildProductUpdates t
      { req with
        DigitalProduct := if t = DigitalProduct then req.DigitalProduct else d'
        PhysicalProduct := if t = PhysicalProduct then req.PhysicalProduct else ph'
        SubscriptionProduct := if t = SubscriptionProduct then req.SubscriptionProduct else sb' } =
    buildProductUpdates t req := by
  by_cases h1 : t = DigitalProduct
  · subst h1
    simp [buildProductUpdates, digital_ne_physical, digital_ne_subscription]
  · by_cases h2 : t = PhysicalProduct
    · subst h2
      simp [buildProductUpdates, Ne.symm digital_ne_physical, physical_ne_subscription, h1]
    · by_cases h3 : t = SubscriptionProduct
      · subst h3
        simp [buildProductUpdates, Ne.symm digital_ne_subscription,
          Ne.symm physical_ne_subscription, h1, h2]
      · simp [buildProductUpdates, h1, h2, h3]

/-- C1: the update set `UpdateProduct` hands to the store never contains the
`type` column; the variant merge is keyed off the *existing* entity's type —
replacing the variant payloads of the other two types by anything at all
leaves the update set unchanged — and within the matching variant each
sub-field enters the set exactly when it is individually present. -/
theorem update_product_type_immutable (rows : List Product) (id : UUID)
    (req : UpdateProductRequest) (p : Product) (hp : getByID rows id = some p) :
    (∀ m, UpdateProduct rows id req = .ok m → m = buildProductUpdates p.Typ req) ∧
    "type" ∉ (buildProductUpdates p.Typ req).map Prod.fst ∧
    (∀ d' ph' sb',
      buildProductUpdates p.Typ
        { req with
          DigitalProduct := if p.Typ = DigitalProduct then req.DigitalProduct else d'
          PhysicalProduct := if p.Typ = PhysicalProduct then req.PhysicalProduct else ph'
          SubscriptionProduct :=
            if p.Typ = SubscriptionProduct then req.SubscriptionProduct else sb' } =
      buildProductUpdates p.Typ req) ∧
    (p.Typ = DigitalProduct → ∀ d, req.DigitalProduct = some d →
      (("digital_file_size" ∈ (buildProductUpdates p.Typ req).map Prod.fst) ↔
        0 < d.FileSize) ∧
      (("digital_download_link" ∈ (buildProductUpdates p.Typ req).map Prod.fst) ↔
        d.DownloadLink ≠ "")) ∧
    (p.Typ = PhysicalProduct → ∀ ph, req.PhysicalProduct = some ph →
      (("physical_weight" ∈ (buildProductUpdates p.Typ req).map Prod.fst) ↔
        0 < ph.Weight) ∧
      (("physical_dimensions" ∈ (buildProductUpdates p.Typ req).map Prod.fst) ↔
        ph.Dimensions ≠ "")) ∧
    (p.Typ = SubscriptionProduct → ∀ sb, req.SubscriptionProduct = some sb →
      (("subscription_period" ∈ (buildProductUpdates p.Typ req).map Prod.fst) ↔
        sb.SubscriptionPeriod ≠ "") ∧
      (("subscription_renewal_price" ∈ (buildProductUpdates p.Typ req).map Prod.fst) ↔
        0 < sb.RenewalPrice)) := by
  refine ⟨?_, ?_, ?_, ?_, ?_, ?_⟩
  · intro m hm
    simp only [UpdateProduct, hp] at hm
    split at hm
    · simp at hm
    · injection hm with h
      exact h.symm
  · intro hmem
    rw [mem_keys_buildProductUpdates] at hmem
    rcases hmem with ⟨h, _⟩ | ⟨h, _⟩ | ⟨h, _⟩ |
      ⟨_, _, _, ⟨h, _⟩ | ⟨h, _⟩⟩ | ⟨_, _, _, ⟨h, _⟩ | ⟨h, _⟩⟩ |
      ⟨_, _, _, ⟨h, _⟩ | ⟨h, _⟩⟩ <;>
      exact absurd h (by decide)
  · intro d' ph' sb'
    exact buildProductUpdates_scrub p.Typ req d' ph' sb'
  · intro hT d hd
    constructor <;>
      (rw [mem_keys_buildProductUpdates]
       simp [hT, hd, digital_ne_physical, digital_ne_subscription])
  · intro hT ph hph
    constructor <;>
      (rw [mem_keys_buildProductUpdates]
       simp [hT, hph, Ne.symm digital_ne_physical, physical_ne_subscription])
  · intro hT sb hsb
    constructor <;>
      (rw [mem_keys_buildProductUpdates]
       simp [hT, hsb, Ne.symm digital_ne_subscription, Ne.symm physical_ne_subscription])

/-- C1 witness: on a stored digital product, an update carrying a physical
payload and a digital payload with only the file size present yields an
update set without `type` and with exactly the digital file-size column. -/
theorem update_product_type_immutable_witness :
    "type" ∉ (buildProductUpdates DigitalProduct
      { Name := "", Description := "", Price := none,
        DigitalProduct := some ⟨7, ""⟩,
        PhysicalProduct := some ⟨1, "big"⟩,
        SubscriptionProduct := none }).map Prod.fst :=
  (update_product_type_immutable
    [{ ID := 1, Name := "n", Description := "d", Price := 5, Typ := DigitalProduct,
       DigitalProductInfo := some ⟨10, "https://x"⟩,
       PhysicalProductInfo := none, SubscriptionProductInfo := none }] 1
    { Name := "", Description := "", Price := none,
      DigitalProduct := some ⟨7, ""⟩,
      PhysicalProduct := some ⟨1, "big"⟩,
      SubscriptionProduct := none }
    { ID := 1, Name := "n", Description := "d", Price := 5, Typ := DigitalProduct,
      DigitalProductInfo := some ⟨10, "https://x"⟩,
      PhysicalProductInfo := none, SubscriptionProductInfo := none }
    (by decide)).2.1

/-- C7: for both product update and subscription-plan update on an existing
entity, when no updatable field is present — every scalar empty or nil and,
for products, no variant sub-field of the existing type individually
present — the operation returns BadRequest "no fields to update" and the
store's update is never invoked (an `.error` result means `store.Update` is
not called, so the stored entity is unchanged). -/
theorem update_no_fields_rejected
    (rows : List Product) (id : UUID) (req : UpdateProductRequest) (p : Product)
    (hp : getByID rows id = some p)
    (hn : req.Name = "") (hds : req.Description = "") (hq : req.Price = none)
    (hvd : p.Typ = DigitalProduct → req.DigitalProduct = none ∨
      ∃ d, req.DigitalProduct = some d ∧ d.FileSize ≤ 0 ∧ d.DownloadLink = "")
    (hvp : p.Typ = PhysicalProduct → req.PhysicalProduct = none ∨
      ∃ ph, req.PhysicalProduct = some ph ∧ ph.Weight ≤ 0 ∧ ph.Dimensions = "")
    (hvs : p.Typ = SubscriptionProduct → req.SubscriptionProduct = none ∨
      ∃ sb, req.SubscriptionProduct = some sb ∧
        sb.SubscriptionPeriod = "" ∧ sb.RenewalPrice ≤ 0)
    (srows : List SubscriptionPlan) (sid : UUID) (sreq : UpdateSubscriptionPlanRequest)
    (spl : SubscriptionPlan) (hsp : planGetByID srows sid = some spl)
    (hsn : sreq.PlanName = "") (hsd : sreq.Duration = none) (hsq : sreq.Price = none) :
    UpdateProduct rows id req = .error (.badRequest "no fields to update") ∧
    UpdateSubscriptionPlan srows sid sreq = .error (.badRequest "no fields to update") := by
  constructor
  · have hkeys : (buildProductUpdates p.Typ req).map Prod.fst = [] := by
      rw [List.eq_nil_iff_forall_not_mem]
      intro k hk
      rw [mem_keys_buildProductUpdates] at hk
      rcases hk with ⟨_, h⟩ | ⟨_, h⟩ | ⟨_, h⟩ |
        ⟨hT, d, hd, hc⟩ | ⟨hT, ph, hph, hc⟩ | ⟨hT, sb, hsb, hc⟩
      · exact h hn
      · exact h hds
      · exact h hq
      · rcases hvd hT with h0 | ⟨d2, hd2, hfs, hdl⟩
        · rw [h0] at hd; cases hd
        · rw [hd2] at hd
          injection hd with he
          subst he
          rcases hc with ⟨_, hlt⟩ | ⟨_, hne⟩
          · omega
          · exact hne hdl
      · rcases hvp hT with h0 | ⟨ph2, hph2, hw, hdm⟩
        · rw [h0] at hph; cases hph
        · rw [hph2] at hph
          injection hph with he
          subst he
          rcases hc with ⟨_, hlt⟩ | ⟨_, hne⟩
          · exact absurd hlt (not_lt.mpr hw)
          · exact hne hdm
      · rcases hvs hT with h0 | ⟨sb2, hsb2, hpe, hrp⟩
        · rw [h0] at hsb; cases hsb
        · rw [hsb2] at hsb
          injection hsb with he
          subst he
          rcases hc with ⟨_, hne⟩ | ⟨_, hlt⟩
          · exact hne hpe
          · exact absurd hlt (not_lt.mpr hrp)
    have hempty : buildProductUpdates p.Typ req = [] := List.map_eq_nil_iff.mp hkeys
    simp [UpdateProduct, hp, hempty]
  · have hempty : buildPlanUpdates sreq = [] := by
      simp [buildPlanUpdates, hsn, hsd, hsq]
    simp [UpdateSubscriptionPlan, hsp, hempty]

/-- C7 witness: a fully-empty product update against a stored digital
product, and a fully-empty plan update against a stored plan, both reject
with the exact message. -/
theorem update_no_fields_rejected_witness :
    UpdateProduct
      [{ ID := 1, Name := "n", Description := "d", Price := 5, Typ := DigitalProduct,
         DigitalProductInfo := some ⟨10, "https://x"⟩,
         PhysicalProductInfo := none, SubscriptionProductInfo := none }] 1
      { Name := "", Description := "", Price := none,
        DigitalProduct := none, PhysicalProduct := none, SubscriptionProduct := none } =
      .error (.badRequest "no fields to update") ∧
    UpdateSubscriptionPlan
      [{ ID := 2, ProductID := 1, PlanName := "basic", Duration := 30, Price := 10 }] 2
      { PlanName := "", Duration := none, Price := none } =
      .error (.badRequest "no fields to update") :=
  update_no_fields_rejected
    [{ ID := 1, Name := "n", Description := "d", Price := 5, Typ := DigitalProduct,
       DigitalProductInfo := some ⟨10, "https://x"⟩,
       PhysicalProductInfo := none, SubscriptionProductInfo := none }] 1
    { Name := "", Description := "", Price := none,
      DigitalProduct := none, PhysicalProduct := none, SubscriptionProduct := none }
    { ID := 1, Name := "n", Description := "d", Price := 5, Typ := DigitalProduct,
      DigitalProductInfo := some ⟨10, "https://x"⟩,
      PhysicalProductInfo := none, SubscriptionProductInfo := none }
    (by decide) rfl rfl rfl (fun _ => Or.inl rfl) (fun _ => Or.inl rfl)
    (fun _ => Or.inl rfl)
    [{ ID := 2, ProductID := 1, PlanName := "basic", Duration := 30, Price := 10 }] 2
    { PlanName := "", Duration := none, Price := none }
    { ID := 2, ProductID := 1, PlanName := "basic", Duration := 30, Price := 10 }
    (by decide) rfl rfl rfl

/-! ### Claim C9 -/

/-- C9 counterexample: a create request with the out-of-range wire type 99
and a perfectly valid digital payload (file size 1, well-formed link) does
not succeed: the variant-attaching switch fires only on exactly-known enum
values, so the domain sees a digital product with no digital payload and
rejects it — even though the "invalid product type" rejection indeed never
fires. -/
theorem pb_out_of_range_type_counterexample :
    convertFromProtobufProductType 99 = DigitalProduct ∧
    HandlerCreateProduct ⟨[], 7⟩
      { Name := "Test", Description := "", Price := 1, Typ := 99,
        DigitalProduct := some ⟨1, "https://a.com"⟩,
        PhysicalProduct := none, SubscriptionProduct := none } =
      (.error (.invalidArgument
        "digital product information is required for digital products"), ⟨[], 7⟩) ∧
    (HandlerCreateProduct ⟨[], 7⟩
      { Name := "Test", Description := "", Price := 1, Typ := 99,
        DigitalProduct := some ⟨1, "https://a.com"⟩,
        PhysicalProduct := none, SubscriptionProduct := none }).1 ≠
      .error (.invalidArgument "invalid product type") := by
  refine ⟨by decide, rfl, ?_⟩
  intro hc
  have h2 := hc
  rw [show (HandlerCreateProduct ⟨[], 7⟩
      { Name := "Test", Description := "", Price := 1, Typ := 99,
        DigitalProduct := some ⟨1, "https://a.com"⟩,
        PhysicalProduct := none, SubscriptionProduct := none }).1 =
      .error (.invalidArgument
        "digital product information is required for digital products") from rfl] at h2
  injection h2 with h3
  injection h3 with h4
  exact absurd h4 (by decide)

/-- C9 (amended): at the wire boundary every product-type value other than
the three known ones converts to Digital rather than being rejected, so the
"invalid product type" BadRequest never occurs and the handler-level variant
validation is skipped; but because the handler attaches a variant payload
only when the wire type is exactly one of the known values, a create request
with an out-of-range type reaches the domain with no digital payload and
always fails BadRequest "digital product information is required for digital
products" — whatever payloads accompany it, nothing is persisted and the
request never succeeds. -/
theorem pb_out_of_range_type_rejected (st : ProductStoreState)
    (req : PbCreateProductRequest)
    (h0 : req.Typ ≠ PB_DIGITAL) (h1 : req.Typ ≠ PB_PHYSICAL)
    (h2 : req.Typ ≠ PB_SUBSCRIPTION)
    (hn : req.Name ≠ "") (hn2 : req.Name.utf8ByteSize ≤ 255)
    (hd : req.Description.utf8ByteSize ≤ 1000) (hp : 0 ≤ req.Price) :
    convertFromProtobufProductType req.Typ = DigitalProduct ∧
    HandlerCreateProduct st req =
      (.error (.invalidArgument
        "digital product information is required for digital products"), st) ∧
    (HandlerCreateProduct st req).1 ≠
      .error (.invalidArgument "invalid product type") ∧
    ∀ p stAfter, HandlerCreateProduct st req ≠ (.ok p, stAfter) := by
  have hconv : convertFromProtobufProductType req.Typ = DigitalProduct := by
    unfold convertFromProtobufProductType
    rw [if_neg h0, if_neg h1, if_neg h2]
  have hhval : handlerValidateTypeSpecificFields req.Typ req.DigitalProduct
      req.PhysicalProduct req.SubscriptionProduct = none := by
    unfold handlerValidateTypeSpecificFields
    rw [if_neg h0, if_neg h1, if_neg h2]
  have hcr : CreateProduct st
      { Name := SanitizeString req.Name
        Description := SanitizeString req.Description
        Price := req.Price
        Typ := convertFromProtobufProductType req.Typ
        DigitalProduct := none
        PhysicalProduct := none
        SubscriptionProduct := none } =
      (.error (.badRequest
        "digital product information is required for digital products"), st) := by
    simp only [CreateProduct, hconv]
    rw [if_neg (by decide : ¬ ¬ (productTypeIsValid DigitalProduct = true))]
    rfl
  have hb1 : ¬ (255 < req.Name.utf8ByteSize) := by omega
  have hb2 : ¬ (1000 < req.Description.utf8ByteSize) := by omega
  have hb3 : ¬ (req.Price < 0) := not_lt.mpr hp
  have hmain : HandlerCreateProduct st req =
      (.error (.invalidArgument
        "digital product information is required for digital products"), st) := by
    simp only [HandlerCreateProduct, if_neg hn, if_neg hb1, if_neg hb2, if_neg hb3,
      hhval, if_neg h0, if_neg h1, if_neg h2, hcr, convertToGRPCError]
  refine ⟨hconv, hmain, ?_, ?_⟩
  · rw [hmain]
    intro hc
    injection hc with h3
    injection h3 with h4
    exact absurd h4 (by decide)
  · intro p stAfter hc
    rw [hmain] at hc
    have h5 : (((.error (.invalidArgument
        "digital product information is required for digital products") :
        Except GrpcErr Product), st) : Except GrpcErr Product × ProductStoreState).1 =
        ((.ok p, stAfter) : Except GrpcErr Product × ProductStoreState).1 := by rw [hc]
    exact Except.noConfusion h5

/-- C9 witness: the amended rejection applied to the concrete out-of-range
wire type 3 accompanied by a valid digital payload. -/
theorem pb_out_of_range_type_rejected_witness :
    HandlerCreateProduct ⟨[], 9⟩
      { Name := "Book", Description := "x", Price := 4, Typ := 3,
        DigitalProduct := some ⟨2, "https://b.com"⟩,
        PhysicalProduct := none, SubscriptionProduct := none } =
      (.error (.invalidArgument
        "digital product information is required for digital products"), ⟨[], 9⟩) :=
  (pb_out_of_range_type_rejected ⟨[], 9⟩
    { Name := "Book", Description := "x", Price := 4, Typ := 3,
      DigitalProduct := some ⟨2, "https://b.com"⟩,
      PhysicalProduct := none, SubscriptionProduct := none }
    (by decide) (by decide) (by decide) (by decide) (by decide) (by decide)
    (by norm_num)).2.1

end PM
